import Mathlib

/-
Shallow embedding of the machine-downtime inference pipeline in src/app.py:
schema validation of uploaded tables, column reordering, preprocessing and
prediction under a catch-all error handler, result assembly, and the manual
input surface. The fitted preprocessing/model artifacts and the persistence
stage are external to src/ and are modelled from the spec where needed.
-/

namespace MachineDowntime

/-- A numeric cell value; rationals model the sensor readings. -/
abbrev Value := ℚ

/-- A table row, viewed as a map from column label to value (pandas-style
label access). -/
abbrev Row := String → Value

/-- Shallow embedding of a pandas DataFrame: a list of column labels plus a
list of rows. -/
structure DataFrame where
  cols : List String
  rows : List Row

/-- STANDARD_PARAMS from app.py: the Parameter Schema, an insertion-ordered
mapping from parameter name to its documented default/reference value. -/
def STANDARD_PARAMS : List (String × Value) :=
  [ ("Hydraulic_Pressure(bar)", 150),
    ("Coolant_Pressure(bar)", 5),
    ("Air_System_Pressure(bar)", 7),
    ("Coolant_Temperature", 25),
    ("Hydraulic_Oil_Temperature(°C)", 45),
    ("Spindle_Bearing_Temperature(°C)", 60),
    ("Spindle_Vibration(µm)", 10),
    ("Tool_Vibration(µm)", 8),
    ("Spindle_Speed(RPM)", 8000),
    ("Voltage(volts)", 400),
    ("Torque(Nm)", 50),
    ("Cutting(kN)", 5/2) ]

/-- The schema's keys in declared order (list(STANDARD_PARAMS.keys())). -/
def standardParamKeys : List String := STANDARD_PARAMS.map Prod.fst

/-- The parameters the sidebar treats as integers (app.py line 38). -/
def integerParams : List String :=
  ["Spindle_Speed(RPM)", "Torque(Nm)", "Cutting(kN)"]

/-- Python int() applied to a numeric value: truncation toward zero. -/
def pyInt (q : ℚ) : ℤ := if 0 ≤ q then ⌊q⌋ else ⌈q⌉

/-- Python str.endswith, phrased over the character list so that concrete
instances reduce in the kernel. -/
def pyEndsWith (s post : String) : Bool := post.data.isSuffixOf s.data

/-- Display name of a parameter (app.py line 36,
param.split('(')[0].replace('_', ' ')): the text before the first opening
parenthesis with every underscore replaced by a space. -/
def displayName (param : String) : String :=
  ⟨(param.data.takeWhile (fun c => c ≠ '(')).map
      (fun c => if c = '_' then ' ' else c)⟩

/-- One sidebar number-input widget: its display label, the default value the
label advertises, the value the field is seeded with, the lower bound if any,
and whether the field is integer-typed. -/
structure NumberInput where
  label : String
  standardShown : ℚ
  seeded : ℚ
  minValue : Option ℤ
  isInteger : Bool
deriving DecidableEq

/-- Placeholder widget used only as a getD default. -/
def w0 : NumberInput :=
  { label := "", standardShown := 0, seeded := 0, minValue := none, isInteger := false }

/-- get_user_input's widget construction (app.py lines 34-50): one field per
schema parameter; integer parameters get min_value=0 and value=int(default);
the rest get value=float(default). -/
def get_user_input_widgets : List NumberInput :=
  STANDARD_PARAMS.map (fun pd =>
    if integerParams.contains pd.1 then
      { label := displayName pd.1, standardShown := pd.2,
        seeded := (pyInt pd.2 : ℚ), minValue := some 0, isInteger := true }
    else
      { label := displayName pd.1, standardShown := pd.2,
        seeded := pd.2, minValue := none, isInteger := false })

/-- get_user_input's returned one-row DataFrame at initial render: each column
holds the widget's seeded value. -/
def get_user_input : DataFrame :=
  { cols := standardParamKeys,
    rows := [fun c =>
      match STANDARD_PARAMS.lookup c with
      | some d => if integerParams.contains c then (pyInt d : ℚ) else d
      | none => 0] }

/-- File-extension test of process_uploaded_file (app.py lines 56-58): a name
is readable when it ends in .csv, .xls or .xlsx. -/
def supportedExtension (name : String) : Bool :=
  pyEndsWith name ".csv" || pyEndsWith name ".xls" || pyEndsWith name ".xlsx"

/-- The two rejection modes of process_uploaded_file. -/
inductive ProcessError where
  | unsupportedFormat
  | missingColumns (missing : List String)
deriving DecidableEq

/-- The schema columns absent from a table (app.py line 67:
required_cols - set(df.columns)). -/
def missingOf (df : DataFrame) : List String :=
  standardParamKeys.filter (fun c => ! df.cols.contains c)

/-- process_uploaded_file (app.py lines 54-74): reject unsupported extensions;
parse; reject when any schema column is missing, naming the missing ones;
otherwise return the parsed table unchanged. The parsed content stands in for
the file body. -/
def process_uploaded_file (name : String) (parsed : DataFrame) :
    Except ProcessError DataFrame :=
  if supportedExtension name then
    if standardParamKeys.all (fun c => parsed.cols.contains c) then .ok parsed
    else .error (.missingColumns (missingOf parsed))
  else .error .unsupportedFormat

/-- The column reordering/narrowing step (app.py line 171:
input_df = input_df[list(STANDARD_PARAMS.keys())]): the column list becomes
exactly the schema keys in schema order; rows are untouched (label access). -/
def reorderToSchema (df : DataFrame) : DataFrame :=
  { cols := standardParamKeys, rows := df.rows }

/-- Sequence a fallible per-element operation over a list, stopping at the
first failure; models a batch sklearn call that raises on any bad element. -/
def exceptMap {ε α β : Type} (f : α → Except ε β) : List α → Except ε (List β)
  | [] => .ok []
  | x :: xs =>
    match f x with
    | .error e => .error e
    | .ok y =>
      match exceptMap f xs with
      | .error e => .error e
      | .ok ys => .ok (y :: ys)

/-- Modelled from the spec: the fitted preprocessing transform
(preprocessor.sav) and the fitted classifier (rfc.pkl) are artifacts loaded
from disk, absent from src/. Per the spec they are immutable, deterministic,
and act on each row independently: the transform maps a row to a numeric
feature vector, the classifier maps a feature vector to a binary label and a
class-probability pair (probability of class 0, probability of class 1). Each
per-row operation may fail (e.g. a value out of the encoder's domain), which
aborts the whole batch call. -/
structure Artifacts where
  transformRow : Row → Except String (List ℚ)
  predictRow : List ℚ → Except String ℤ
  probaRow : List ℚ → Except String (ℚ × ℚ)

/-- The augmented result table built when len(input_df) > 1 (app.py lines
200-202): the reordered input plus a Prediction column and a
Failure_Probability column holding x[1] of each probability pair. -/
structure DetailedTable where
  base : DataFrame
  predictionCol : List ℤ
  failureProbabilityCol : List ℚ

/-- The machine-status text displayed for the first row's label (app.py
line 185). -/
def interpretLabel (p : ℤ) : String :=
  if p = 1 then "1 (NO Machine Failure)" else "0 (Machine Failure)"

/-- What a successful run of the predict handler displays: the first row's
label and its status text, the first row's probability pair, and the detailed
table when the input has more than one row. -/
structure RunSuccess where
  headlineLabel : ℤ
  headlineText : String
  headlineProba : ℚ × ℚ
  detailed : Option DetailedTable

/-- preprocessor.transform on the reordered table (app.py line 174). -/
def processedFeatures (a : Artifacts) (df : DataFrame) :
    Except String (List (List ℚ)) :=
  exceptMap a.transformRow (reorderToSchema df).rows

/-- The try-block of the predict handler (app.py lines 169-204): subscripting
None raises; otherwise reorder the columns, transform, predict, take the
probabilities, display the first row's result, and when the table has more
than one row attach per-row labels and class-1 probabilities. Any raised
error becomes the except-branch value. -/
def tryBlock (a : Artifacts) (input : Option DataFrame) :
    Except String RunSuccess :=
  match input with
  | none => .error "TypeError: argument of type NoneType is not subscriptable"
  | some df0 =>
    let df := reorderToSchema df0
    match processedFeatures a df0 with
    | .error e => .error e
    | .ok feats =>
      match exceptMap a.predictRow feats with
      | .error e => .error e
      | .ok preds =>
        match exceptMap a.probaRow feats with
        | .error e => .error e
        | .ok probas =>
          match preds, probas with
          | p0 :: _, pr0 :: _ =>
            .ok { headlineLabel := p0
                  headlineText := interpretLabel p0
                  headlineProba := pr0
                  detailed :=
                    if 1 < df.rows.length then
                      some { base := df
                             predictionCol := preds
                             failureProbabilityCol := probas.map Prod.snd }
                    else none }
          | _, _ => .error "IndexError: index 0 is out of bounds"

/-- What the predict-button handler surfaces to the user. -/
inductive ButtonOutcome where
  | warningProvideInput
  | errorShown (msg : String)
  | success (r : RunSuccess)

/-- The predict-button handler (app.py lines 164-207): warn when input_df is
unbound in locals(), otherwise run the try-block and surface any caught
exception as a single error message. The binding argument is None exactly
when input_df is not in locals(); its payload is the Python value of
input_df (itself None when upload processing failed). -/
def predictButtonHandler (binding : Option (Option DataFrame))
    (a : Artifacts) : ButtonOutcome :=
  match binding with
  | none => .warningProvideInput
  | some input =>
    match tryBlock a input with
    | .error e => .errorShown ("Error in prediction: " ++ e)
    | .ok r => .success r

/-- The col1 stage of main (app.py lines 142-154): when a file was uploaded,
input_df is assigned the processing result (None on failure); otherwise
input_df is assigned the manual-entry row. Either way input_df ends up bound,
hence the outer some. -/
def col1Binding (uploaded : Option (String × DataFrame)) :
    Option (Option DataFrame) :=
  match uploaded with
  | some u => some (process_uploaded_file u.1 u.2).toOption
  | none => some (some get_user_input)

/-- One pipeline invocation with explicit artifact state passing: the
artifacts are loaded once at process start and never reassigned by the
handler, so an invocation returns them unchanged. -/
def invokePipeline (a : Artifacts) (input : Option DataFrame) :
    Except String RunSuccess × Artifacts :=
  (tryBlock a input, a)

/-- Modelled from the spec: the relational-sink credentials (username,
password, database name) belong to the persistence stage described in the
spec but absent from src/app.py. -/
structure Credentials where
  user : String
  password : String
  database : String

/-- Modelled from the spec: persistence is attempted exactly when all three
credential fields are non-empty; a blank field switches persistence off. -/
def persistenceAttempted (c : Credentials) : Bool :=
  (c.user != "") && (c.password != "") && (c.database != "")

/-- Modelled from the spec: the pipeline with the optional persistence mode
switch; it returns the in-memory prediction result together with whether a
write to the relational sink is attempted. -/
def runWithPersistence (a : Artifacts) (input : Option DataFrame)
    (c : Credentials) : Except String RunSuccess × Bool :=
  (tryBlock a input, persistenceAttempted c)

/-- A sample deterministic artifact set, used to instantiate theorems at
concrete inputs. -/
def sampleArtifacts : Artifacts :=
  { transformRow := fun r => .ok [r "Torque(Nm)"]
    predictRow := fun f => .ok (if f.length = 0 then 0 else 1)
    probaRow := fun _ => .ok (1/4, 3/4) }

/-- An artifact set whose transform rejects every row, modelling an encoder
fed a value outside its domain. -/
def failingArtifacts : Artifacts :=
  { transformRow := fun _ => .error "value out of encoder domain"
    predictRow := fun _ => .ok 1
    probaRow := fun _ => .ok (1/2, 1/2) }

/-- A one-row table carrying exactly the schema columns. -/
def dfOne : DataFrame :=
  { cols := standardParamKeys, rows := [fun _ => 1] }

/-- A two-row table carrying exactly the schema columns. -/
def dfTwo : DataFrame :=
  { cols := standardParamKeys, rows := [fun _ => 1, fun _ => 2] }

/-- A one-row table lacking the Coolant_Pressure column. -/
def dfMissing : DataFrame :=
  { cols := standardParamKeys.filter (fun c => c != "Coolant_Pressure(bar)"),
    rows := [fun _ => 1] }

/-- The successful run produced by sampleArtifacts on dfOne. -/
def runOne : RunSuccess :=
  { headlineLabel := 1
    headlineText := "1 (NO Machine Failure)"
    headlineProba := (1/4, 3/4)
    detailed := none }

/-- The detailed table produced by sampleArtifacts on dfTwo. -/
def dtTwo : DetailedTable :=
  { base := reorderToSchema dfTwo
    predictionCol := [1, 1]
    failureProbabilityCol := [3/4, 3/4] }

/-- The successful run produced by sampleArtifacts on dfTwo. -/
def runTwo : RunSuccess :=
  { headlineLabel := 1
    headlineText := "1 (NO Machine Failure)"
    headlineProba := (1/4, 3/4)
    detailed := some dtTwo }

/- ### Helper lemmas -/

theorem exceptMap_ok_iff {ε α β : Type} (f : α → Except ε β)
    (xs : List α) (ys : List β) :
    exceptMap f xs = Except.ok ys ↔
      List.Forall₂ (fun x y => f x = Except.ok y) xs ys := by
  induction xs generalizing ys with
  | nil =>
    simp only [exceptMap]
    constructor
    · intro h
      cases h
      exact List.Forall₂.nil
    · intro h
      cases h
      rfl
  | cons x xs ih =>
    simp only [exceptMap]
    cases hfx : f x with
    | error e =>
      constructor
      · intro h
        exact absurd h (by simp)
      · intro h
        cases h with
        | cons h1 h2 =>
          rw [hfx] at h1
          exact absurd h1 (by simp)
    | ok y =>
      cases hm : exceptMap f xs with
      | error e =>
        constructor
        · intro h
          exact absurd h (by simp)
        · intro h
          cases h with
          | cons h1 h2 =>
            have h3 := (ih _).mpr h2
            rw [hm] at h3
            exact absurd h3 (by simp)
      | ok ys' =>
        constructor
        · intro h
          cases h
          exact List.Forall₂.cons hfx ((ih ys').mp hm)
        · intro h
          cases h with
          | cons h1 h2 =>
            rw [hfx] at h1
            cases h1
            have h3 := (ih _).mpr h2
            rw [hm] at h3
            cases h3
            rfl

theorem exceptMap_error_of_mem {ε α β : Type} (f : α → Except ε β)
    (xs : List α) (h : ∃ x ∈ xs, ∃ e, f x = Except.error e) :
    ∃ e', exceptMap f xs = Except.error e' := by
  induction xs with
  | nil =>
    obtain ⟨x, hx, -⟩ := h
    cases hx
  | cons a xs ih =>
    obtain ⟨x, hx, e, hfe⟩ := h
    simp only [exceptMap]
    cases hfa : f a with
    | error e' => exact ⟨e', rfl⟩
    | ok y =>
      have hx' : x ∈ xs := by
        cases hx with
        | head =>
          rw [hfa] at hfe
          exact absurd hfe (by simp)
        | tail _ h' => exact h'
      obtain ⟨e'', hm⟩ := ih ⟨x, hx', e, hfe⟩
      rw [hm]
      exact ⟨e'', rfl⟩

theorem tryBlock_ok_elim (a : Artifacts) (df : DataFrame) (r : RunSuccess)
    (h : tryBlock a (some df) = Except.ok r) :
    ∃ feats p0 ps pr0 prs,
      processedFeatures a df = Except.ok feats ∧
      exceptMap a.predictRow feats = Except.ok (p0 :: ps) ∧
      exceptMap a.probaRow feats = Except.ok (pr0 :: prs) ∧
      r = { headlineLabel := p0
            headlineText := interpretLabel p0
            headlineProba := pr0
            detailed :=
              if 1 < df.rows.length then
                some { base := reorderToSchema df
                       predictionCol := p0 :: ps
                       failureProbabilityCol := (pr0 :: prs).map Prod.snd }
              else none } := by
  simp only [tryBlock] at h
  split at h
  · exact absurd h (by simp)
  next feats hf =>
    split at h
    · exact absurd h (by simp)
    next preds hp =>
      split at h
      · exact absurd h (by simp)
      next probas hpr =>
        split at h
        next p0 ps pr0 prs =>
          refine ⟨feats, p0, ps, pr0, prs, hf, hp, hpr, ?_⟩
          simp only [Except.ok.injEq] at h
          exact h.symm
        next =>
          exact absurd h (by simp)

theorem tryBlock_error_of_feats_error (a : Artifacts) (df : DataFrame)
    (e : String) (h : processedFeatures a df = Except.error e) :
    tryBlock a (some df) = Except.error e := by
  simp only [tryBlock, h]

theorem tryBlock_error_of_predict_error (a : Artifacts) (df : DataFrame)
    (feats : List (List ℚ)) (e : String)
    (hf : processedFeatures a df = Except.ok feats)
    (hp : exceptMap a.predictRow feats = Except.error e) :
    tryBlock a (some df) = Except.error e := by
  simp only [tryBlock, hf, hp]

/- ### Claims -/

/-- C1: for every parsed table whose column set contains every Parameter
Schema key (any order, extra columns allowed), the validator accepts it and
the reorder step narrows it to exactly the schema's columns in the schema's
declared order; for every parsed table missing at least one schema column,
the validator rejects it and the failure names exactly the missing schema
columns. -/
theorem C1_schema_validator (name : String) (df : DataFrame)
    (hext : supportedExtension name = true) :
    ((∀ c ∈ standardParamKeys, c ∈ df.cols) →
      process_uploaded_file name df = Except.ok df ∧
      (reorderToSchema df).cols = standardParamKeys ∧
      (reorderToSchema df).rows = df.rows) ∧
    ((∃ c ∈ standardParamKeys, c ∉ df.cols) →
      ∃ missing,
        process_uploaded_file name df =
          Except.error (ProcessError.missingColumns missing) ∧
        ∀ c, c ∈ missing ↔ c ∈ standardParamKeys ∧ c ∉ df.cols) := by
  constructor
  · intro hall
    refine ⟨?_, rfl, rfl⟩
    have hc : standardParamKeys.all (fun c => df.cols.contains c) = true := by
      rw [List.all_eq_true]
      intro c hc
      exact List.elem_iff.mpr (hall c hc)
    simp only [process_uploaded_file, hext, hc, if_true]
  · rintro ⟨c, hc, hnc⟩
    have hc' : standardParamKeys.all (fun c => df.cols.contains c) = false := by
      rw [Bool.eq_false_iff]
      intro hall
      rw [List.all_eq_true] at hall
      exact hnc (List.elem_iff.mp (hall c hc))
    refine ⟨missingOf df, ?_, ?_⟩
    · simp only [process_uploaded_file, hext, hc', if_true, Bool.false_eq_true,
        if_false]
    · intro c'
      simp only [missingOf, List.mem_filter, Bool.not_eq_true',
        and_congr_right_iff]
      intro _
      rw [Bool.eq_false_iff]
      exact not_congr List.elem_iff

/-- C5: an uploaded file whose name ends in none of .csv, .xls, .xlsx is
rejected with the file-format error and no table is returned, whatever the
parsed contents are — so the rejection is decided by the extension alone,
independently of the schema-membership check. -/
theorem C5_unsupported_extension (name : String) (df : DataFrame)
    (h : supportedExtension name = false) :
    process_uploaded_file name df =
      Except.error ProcessError.unsupportedFormat := by
  simp only [process_uploaded_file, h, Bool.false_eq_true, if_false]

/-- C5 witness: a .txt upload is rejected for its format even though its
contents carry every schema column. -/
theorem C5_witness :
    supportedExtension "data.txt" = false ∧
    (∀ c ∈ standardParamKeys, c ∈ dfOne.cols) ∧
    process_uploaded_file "data.txt" dfOne =
      Except.error ProcessError.unsupportedFormat :=
  ⟨by decide, by decide, C5_unsupported_extension "data.txt" dfOne (by decide)⟩

/-- C1 witness: a .csv upload carrying exactly the schema columns is accepted
and reordered to the schema's order. -/
theorem C1_witness :
    (∀ c ∈ standardParamKeys, c ∈ dfOne.cols) ∧
    process_uploaded_file "machine.csv" dfOne = Except.ok dfOne ∧
    (reorderToSchema dfOne).cols = standardParamKeys := by
  have h := C1_schema_validator "machine.csv" dfOne (by decide)
  have hall : ∀ c ∈ standardParamKeys, c ∈ dfOne.cols := by decide
  exact ⟨hall, (h.1 hall).1, (h.1 hall).2.1⟩

/-- C2: when the transform and the prediction of a validated table both
succeed, there are exactly as many predictions as input rows, in the same
order, and the i-th prediction is a function of the i-th row alone (through
its own feature vector), so rows are never cross-correlated. -/
theorem C2_predictions_rowwise (a : Artifacts) (df : DataFrame)
    (feats : List (List ℚ)) (preds : List ℤ)
    (hf : processedFeatures a df = Except.ok feats)
    (hp : exceptMap a.predictRow feats = Except.ok preds) :
    preds.length = df.rows.length ∧
    ∀ i (h1 : i < df.rows.length) (h2 : i < preds.length),
      ∃ fv, a.transformRow (df.rows.get ⟨i, h1⟩) = Except.ok fv ∧
        a.predictRow fv = Except.ok (preds.get ⟨i, h2⟩) := by
  have hf2 := (exceptMap_ok_iff _ _ _).mp hf
  have hp2 := (exceptMap_ok_iff _ _ _).mp hp
  have hlen1 : df.rows.length = feats.length := hf2.length_eq
  have hlen2 : feats.length = preds.length := hp2.length_eq
  refine ⟨(hlen1.trans hlen2).symm, ?_⟩
  intro i h1 h2
  have hif : i < feats.length := hlen2 ▸ h2
  have hfi := (List.forall₂_iff_get.mp hf2).2 i h1 hif
  have hpi := (List.forall₂_iff_get.mp hp2).2 i hif h2
  exact ⟨feats.get ⟨i, hif⟩, hfi, hpi⟩

/-- C2 witness: a concrete two-row table yields two predictions, the second
derived from the second row alone. -/
theorem C2_witness :
    ([1, 1] : List ℤ).length = dfTwo.rows.length ∧
    ∃ fv, sampleArtifacts.transformRow (dfTwo.rows.get ⟨1, by decide⟩) =
        Except.ok fv ∧
      sampleArtifacts.predictRow fv =
        Except.ok (([1, 1] : List ℤ).get ⟨1, by decide⟩) := by
  have h := C2_predictions_rowwise sampleArtifacts dfTwo [[1], [2]] [1, 1]
    rfl rfl
  exact ⟨h.1, h.2 1 (by decide) (by decide)⟩

/-- C3: persistence is attempted exactly when user, password and database
name are all non-empty, and the credentials never influence the in-memory
prediction result. Modelled from the spec: the persistence stage is not part
of src/app.py. -/
theorem C3_persistence_mode_switch (a : Artifacts) (input : Option DataFrame)
    (c : Credentials) :
    ((runWithPersistence a input c).2 = true ↔
      c.user ≠ "" ∧ c.password ≠ "" ∧ c.database ≠ "") ∧
    ∀ c', (runWithPersistence a input c).1 = (runWithPersistence a input c').1 := by
  constructor
  · simp [runWithPersistence, persistenceAttempted, bne_iff_ne, and_assoc]
  · intro c'
    rfl

/-- C6: invoking the pipeline twice on identical input leaves the loaded
artifacts unchanged and yields an identical result, since the handler never
reassigns the artifacts and the embedded transform/model are functions. -/
theorem C6_deterministic_invocations (a : Artifacts) (input : Option DataFrame) :
    (invokePipeline a input).2 = a ∧
    (invokePipeline (invokePipeline a input).2 input).1 =
      (invokePipeline a input).1 :=
  ⟨rfl, rfl⟩

/-- C4: if any row's transform fails, or the transform succeeds and any
feature vector's prediction fails, the handler reports a single user-facing
error and the request yields no result at all — in particular no partial
batch is ever surfaced. -/
theorem C4_whole_batch_abort (a : Artifacts) (df : DataFrame)
    (h : (∃ row ∈ (reorderToSchema df).rows, ∃ e,
            a.transformRow row = Except.error e) ∨
         (∃ feats, processedFeatures a df = Except.ok feats ∧
            ∃ fv ∈ feats, ∃ e, a.predictRow fv = Except.error e)) :
    ∃ msg, predictButtonHandler (some (some df)) a =
        ButtonOutcome.errorShown msg ∧
      ∀ r, predictButtonHandler (some (some df)) a ≠ ButtonOutcome.success r := by
  have hErr : ∃ e, tryBlock a (some df) = Except.error e := by
    cases h with
    | inl h1 =>
      obtain ⟨e', hm⟩ := exceptMap_error_of_mem a.transformRow _ h1
      exact ⟨e', tryBlock_error_of_feats_error a df e' hm⟩
    | inr h2 =>
      obtain ⟨feats, hfok, hfv⟩ := h2
      obtain ⟨e', hm⟩ := exceptMap_error_of_mem a.predictRow _ hfv
      exact ⟨e', tryBlock_error_of_predict_error a df feats e' hfok hm⟩
  obtain ⟨e, hte⟩ := hErr
  refine ⟨"Error in prediction: " ++ e, ?_, ?_⟩
  · simp only [predictButtonHandler, hte]
  · intro r
    simp only [predictButtonHandler, hte]
    intro hcon
    exact ButtonOutcome.noConfusion hcon

/-- C4 witness: artifacts whose transform rejects every row abort the whole
one-row request with a single error and no success outcome. -/
theorem C4_witness :
    ∃ msg, predictButtonHandler (some (some dfOne)) failingArtifacts =
        ButtonOutcome.errorShown msg ∧
      predictButtonHandler (some (some dfOne)) failingArtifacts ≠
        ButtonOutcome.success runOne := by
  obtain ⟨msg, hmsg, hns⟩ := C4_whole_batch_abort failingArtifacts dfOne
    (Or.inl ⟨fun _ => 1, List.Mem.head _, "value out of encoder domain", rfl⟩)
  exact ⟨msg, hmsg, hns runOne⟩

/-- C8: the Failure_Probability column of the detailed table stores, for each
row, the second component of predict_proba's pair — the probability of class
1 — while the same program displays label 1 as NO machine failure and label 0
as machine failure; so the stored value is the probability of the class the
program presents as no-failure. -/
theorem C8_failure_probability_polarity (a : Artifacts) (df : DataFrame)
    (r : RunSuccess) (dt : DetailedTable)
    (h : tryBlock a (some df) = Except.ok r)
    (hdt : r.detailed = some dt) :
    interpretLabel 1 = "1 (NO Machine Failure)" ∧
    interpretLabel 0 = "0 (Machine Failure)" ∧
    dt.failureProbabilityCol.length = df.rows.length ∧
    ∀ i (h1 : i < df.rows.length) (h2 : i < dt.failureProbabilityCol.length),
      ∃ fv pr, a.transformRow (df.rows.get ⟨i, h1⟩) = Except.ok fv ∧
        a.probaRow fv = Except.ok pr ∧
        dt.failureProbabilityCol.get ⟨i, h2⟩ = pr.2 := by
  obtain ⟨feats, p0, ps, pr0, prs, hf, hp, hpr, hr⟩ := tryBlock_ok_elim a df r h
  subst hr
  have hdt' : (if 1 < df.rows.length then
      some { base := reorderToSchema df
             predictionCol := p0 :: ps
             failureProbabilityCol := (pr0 :: prs).map Prod.snd }
    else (none : Option DetailedTable)) = some dt := hdt
  by_cases hlen : 1 < df.rows.length
  · rw [if_pos hlen] at hdt'
    have hdt2 := Option.some.inj hdt'
    subst hdt2
    have hf2 := (exceptMap_ok_iff _ _ _).mp hf
    have hpr2 := (exceptMap_ok_iff _ _ _).mp hpr
    have hlen1 : df.rows.length = feats.length := hf2.length_eq
    have hlen2 : feats.length = (pr0 :: prs).length := hpr2.length_eq
    refine ⟨rfl, rfl, ?_, ?_⟩
    · simp only [List.length_map]
      omega
    · intro i h1 h2
      have hif : i < feats.length := hlen1 ▸ h1
      have hipr : i < (pr0 :: prs).length := hlen2 ▸ hif
      have hfi := (List.forall₂_iff_get.mp hf2).2 i h1 hif
      have hpri := (List.forall₂_iff_get.mp hpr2).2 i hif hipr
      refine ⟨feats.get ⟨i, hif⟩, (pr0 :: prs).get ⟨i, hipr⟩, hfi, hpri, ?_⟩
      exact List.getElem_map Prod.snd
  · rw [if_neg hlen] at hdt'
    exact absurd hdt' (by simp)

/-- C8 witness: on the concrete two-row table, the first stored
Failure_Probability is the class-1 probability 3/4 and label 1 is displayed
as NO machine failure. -/
theorem C8_witness :
    interpretLabel 1 = "1 (NO Machine Failure)" ∧
    ∃ fv pr, sampleArtifacts.transformRow (dfTwo.rows.get ⟨0, by decide⟩) =
        Except.ok fv ∧
      sampleArtifacts.probaRow fv = Except.ok pr ∧
      dtTwo.failureProbabilityCol.get ⟨0, by decide⟩ = pr.2 := by
  have h := C8_failure_probability_polarity sampleArtifacts dfTwo runTwo dtTwo
    rfl rfl
  exact ⟨h.1, h.2.2.2 0 (by decide) (by decide)⟩

/-- C9: whenever the predict handler succeeds, the headline result is built
from the first prediction and the first probability pair only, and the
result table is augmented with per-row columns exactly when the input has
strictly more than one row — never for a single-row input. -/
theorem C9_headline_first_row (a : Artifacts) (df : DataFrame)
    (r : RunSuccess) (h : tryBlock a (some df) = Except.ok r) :
    (∃ feats p0 ps pr0 prs,
      processedFeatures a df = Except.ok feats ∧
      exceptMap a.predictRow feats = Except.ok (p0 :: ps) ∧
      exceptMap a.probaRow feats = Except.ok (pr0 :: prs) ∧
      r.headlineLabel = p0 ∧ r.headlineText = interpretLabel p0 ∧
      r.headlineProba = pr0) ∧
    (df.rows.length ≤ 1 → r.detailed = none) ∧
    (1 < df.rows.length → ∃ dt, r.detailed = some dt) := by
  obtain ⟨feats, p0, ps, pr0, prs, hf, hp, hpr, hr⟩ := tryBlock_ok_elim a df r h
  subst hr
  refine ⟨⟨feats, p0, ps, pr0, prs, hf, hp, hpr, rfl, rfl, rfl⟩, ?_, ?_⟩
  · intro hle
    show (if 1 < df.rows.length then _ else (none : Option DetailedTable)) = none
    rw [if_neg (by omega)]
  · intro hlt
    refine ⟨{ base := reorderToSchema df
              predictionCol := p0 :: ps
              failureProbabilityCol := (pr0 :: prs).map Prod.snd }, ?_⟩
    show (if 1 < df.rows.length then _ else (none : Option DetailedTable)) = some _
    rw [if_pos hlt]

/-- C9 witness: the concrete one-row table succeeds with headline label 1 and
no augmented result table. -/
theorem C9_witness :
    runOne.detailed = none ∧ runOne.headlineLabel = 1 := by
  have h := C9_headline_first_row sampleArtifacts dfOne runOne rfl
  exact ⟨h.2.1 (by decide), rfl⟩

/-- C10: on every path through main, input_df is bound before the predict
handler runs, so the bound-check warning branch is unreachable; and when
upload processing failed (input_df = None), the handler instead surfaces a
generic prediction error from the try-block. -/
theorem C10_warning_unreachable (a : Artifacts)
    (u : Option (String × DataFrame)) :
    predictButtonHandler (col1Binding u) a ≠
      ButtonOutcome.warningProvideInput ∧
    ∀ name content e, u = some (name, content) →
      process_uploaded_file name content = Except.error e →
      ∃ msg, predictButtonHandler (col1Binding u) a =
        ButtonOutcome.errorShown msg := by
  constructor
  · cases u with
    | none =>
      simp only [col1Binding, predictButtonHandler]
      cases htb : tryBlock a (some get_user_input) with
      | error e => simp [htb]
      | ok r => simp [htb]
    | some p =>
      simp only [col1Binding, predictButtonHandler]
      cases htb : tryBlock a (process_uploaded_file p.1 p.2).toOption with
      | error e => simp [htb]
      | ok r => simp [htb]
  · intro name content e hu herr
    subst hu
    refine ⟨"Error in prediction: " ++
      "TypeError: argument of type NoneType is not subscriptable", ?_⟩
    simp only [col1Binding, predictButtonHandler, herr, Except.toOption,
      tryBlock]

/-- C10 witness: an upload with a missing schema column leaves input_df bound
to None; the handler skips the warning and reports a prediction error. -/
theorem C10_witness :
    predictButtonHandler (col1Binding (some ("machine.csv", dfMissing)))
        sampleArtifacts ≠ ButtonOutcome.warningProvideInput ∧
    ∃ msg, predictButtonHandler (col1Binding (some ("machine.csv", dfMissing)))
        sampleArtifacts = ButtonOutcome.errorShown msg := by
  have h := C10_warning_unreachable sampleArtifacts
    (some ("machine.csv", dfMissing))
  exact ⟨h.1, h.2 "machine.csv" dfMissing
    (ProcessError.missingColumns ["Coolant_Pressure(bar)"]) rfl rfl⟩

/-- C7 counterexample: the widget for the twelfth parameter, Cutting(kN), is
seeded with int(2.5) = 2 although the documented default the claim refers to
(and the label advertises) is 2.5 — so not every field is seeded with its
documented default value. -/
theorem C7_counterexample :
    (STANDARD_PARAMS.getD 11 ("", 0)).1 = "Cutting(kN)" ∧
    (STANDARD_PARAMS.getD 11 ("", 0)).2 = 5/2 ∧
    (get_user_input_widgets.getD 11 w0).standardShown = 5/2 ∧
    (get_user_input_widgets.getD 11 w0).seeded = 2 ∧
    (get_user_input_widgets.getD 11 w0).seeded ≠
      (get_user_input_widgets.getD 11 w0).standardShown := by
  have h1 : (0:ℚ) ≤ 5/2 := by norm_num
  have h2 : (⌊(5:ℚ)/2⌋ : ℤ) = 2 := by norm_num [Int.floor_eq_iff]
  have hseed : (get_user_input_widgets.getD 11 w0).seeded = 2 := by
    show ((pyInt (5/2 : ℚ) : ℤ) : ℚ) = 2
    rw [pyInt, if_pos h1, h2]
    norm_num
  refine ⟨rfl, rfl, rfl, hseed, ?_⟩
  rw [hseed]
  show (2 : ℚ) ≠ 5/2
  norm_num

/-- C7 (amended): the manual input surface presents exactly one numeric field
per schema parameter, every label advertising the documented default; the
integer-typed parameters (Spindle_Speed, Torque, Cutting) are constrained to
non-negative integers and seeded with the integer truncation of their default
(which equals the default except for Cutting(kN): default 2.5, seeded 2);
every other parameter has no bound and is seeded with its default. -/
theorem C7_manual_input_surface :
    get_user_input_widgets.length = STANDARD_PARAMS.length ∧
    ∀ i, i < STANDARD_PARAMS.length →
      ((get_user_input_widgets.getD i w0).label =
          displayName (STANDARD_PARAMS.getD i ("", 0)).1 ∧
        (get_user_input_widgets.getD i w0).standardShown =
          (STANDARD_PARAMS.getD i ("", 0)).2 ∧
        (integerParams.contains (STANDARD_PARAMS.getD i ("", 0)).1 = true →
          (get_user_input_widgets.getD i w0).isInteger = true ∧
          (get_user_input_widgets.getD i w0).minValue = some 0 ∧
          (get_user_input_widgets.getD i w0).seeded =
            ((pyInt (STANDARD_PARAMS.getD i ("", 0)).2 : ℤ) : ℚ)) ∧
        (integerParams.contains (STANDARD_PARAMS.getD i ("", 0)).1 = false →
          (get_user_input_widgets.getD i w0).isInteger = false ∧
          (get_user_input_widgets.getD i w0).minValue = none ∧
          (get_user_input_widgets.getD i w0).seeded =
            (STANDARD_PARAMS.getD i ("", 0)).2)) := by
  constructor
  · simp [get_user_input_widgets]
  · intro i hi
    have h1 : STANDARD_PARAMS.get? i = some (STANDARD_PARAMS.get ⟨i, hi⟩) :=
      List.get?_eq_get hi
    have h2 : STANDARD_PARAMS.getD i ("", 0) = STANDARD_PARAMS.get ⟨i, hi⟩ := by
      rw [List.getD_eq_get?, h1, Option.getD_some]
    have h3 : get_user_input_widgets.getD i w0 =
        (if integerParams.contains (STANDARD_PARAMS.get ⟨i, hi⟩).1 then
          ({ label := displayName (STANDARD_PARAMS.get ⟨i, hi⟩).1
             standardShown := (STANDARD_PARAMS.get ⟨i, hi⟩).2
             seeded := (pyInt (STANDARD_PARAMS.get ⟨i, hi⟩).2 : ℚ)
             minValue := some 0
             isInteger := true } : NumberInput)
        else
          { label := displayName (STANDARD_PARAMS.get ⟨i, hi⟩).1
            standardShown := (STANDARD_PARAMS.get ⟨i, hi⟩).2
            seeded := (STANDARD_PARAMS.get ⟨i, hi⟩).2
            minValue := none
            isInteger := false }) := by
      rw [get_user_input_widgets, List.getD_eq_get?, List.get?_map, h1]
      rfl
    rw [h2, h3]
    by_cases hx : integerParams.contains (STANDARD_PARAMS.get ⟨i, hi⟩).1 = true
    · rw [if_pos hx]
      exact ⟨rfl, rfl, fun _ => ⟨rfl, rfl, rfl⟩,
        fun hfalse => absurd (hx.symm.trans hfalse) (by simp)⟩
    · rw [if_neg hx]
      exact ⟨rfl, rfl, fun htrue => absurd htrue hx,
        fun _ => ⟨rfl, rfl, rfl⟩⟩

/-- C7 witness: at index 11 (Cutting), the field is integer-typed, bounded
below by 0, and seeded with the truncation of its default. -/
theorem C7_witness :
    (get_user_input_widgets.getD 11 w0).isInteger = true ∧
    (get_user_input_widgets.getD 11 w0).minValue = some 0 ∧
    (get_user_input_widgets.getD 11 w0).seeded =
      ((pyInt (STANDARD_PARAMS.getD 11 ("", 0)).2 : ℤ) : ℚ) :=
  (C7_manual_input_surface.2 11 (by decide)).2.2.1 (by decide)

end MachineDowntime
